import Mathlib

/-!
Verification of the openclaw `my-ops` adapter suite against its specification.

The definitions below are shallow embeddings of the JavaScript adapters in
`extensions/my-ops/bin/himalaya-mail-adapter.js` (the mail adapter) and
`extensions/my-ops/bin/mowen-api-adapter.js` (the notes adapter plus the
embedded JXA calendar adapter).  Strings model JavaScript strings, `Option`
models `undefined`-able values, and process effects (backend spawns, HTTP
calls, rate-limiter use) are threaded explicitly through the return values.
-/

namespace MyOps

/-- JS `String.prototype.trim`: strip leading and trailing whitespace.
Implemented over the character list so that it evaluates by kernel
reduction. -/
def jsTrim (s : String) : String :=
  String.mk
    (((s.data.dropWhile Char.isWhitespace).reverse.dropWhile
        Char.isWhitespace).reverse)

/-- The adapters' shared `readString` helper: a value is accepted only when it
is a string whose trimmed form is non-empty; the trimmed form is returned.
`none` models a JS value that is absent or not a string. -/
def readString : Option String → Option String
  | none => none
  | some s =>
    let t := jsTrim s
    if t = "" then none else some t

/-! ### Mail adapter: `handleSendMessage` (himalaya-mail-adapter.js:557-688)

The idempotency store (`himalaya-mail-idempotency.json`) is modelled as an
association list from entry key to record; JS object assignment corresponds to
prepending, with lookup returning the most recent binding.  The sha256 content
hash is modelled as an explicit function parameter `hash`. -/

/-- One record of the idempotency store; only `contentHash` is consulted by
the adapter on reuse (the stored metadata fields never influence control
flow).  `contentHash := none` models a record missing that field. -/
structure IdemEntry where
  contentHash : Option String
deriving Repr, DecidableEq

/-- The idempotency store file content: `keys` as an association list. -/
abbrev IdemStore := List (String × IdemEntry)

/-- Lookup `store.keys[entryKey]`. -/
def storeLookup (store : IdemStore) (key : String) : Option IdemEntry :=
  (store.find? (fun kv => kv.1 == key)).map (fun kv => kv.2)

/-- Assignment `store.keys[entryKey] = entry` (later bindings shadow earlier
ones, like JS object assignment). -/
def storeInsert (store : IdemStore) (key : String) (entry : IdemEntry) : IdemStore :=
  (key, entry) :: store

/-- The fields of `settings.payload` that `handleSendMessage` reads.  Each
`Option String` is the raw JS field (absent or a string); `requireIdempotencyKey`
is read via `readBoolean` with fallback `false`. -/
structure SendPayload where
  rawMessage : Option String := none
  message : Option String := none
  raw : Option String := none
  template : Option String := none
  format : Option String := none
  requireIdempotencyKey : Option Bool := none
  idempotencyKey : Option String := none
deriving Repr, DecidableEq

/-- `readString(payload.rawMessage) ?? readString(payload.message) ?? readString(payload.raw)`. -/
def resolveRawMessage (p : SendPayload) : Option String :=
  readString p.rawMessage <|> readString p.message <|> readString p.raw

/-- `readString(payload.template)`. -/
def resolveTemplate (p : SendPayload) : Option String :=
  readString p.template

/-- `Boolean(template) || readString(payload.format) === "mml"`. -/
def useTemplateFlag (p : SendPayload) : Bool :=
  (resolveTemplate p).isSome || decide (readString p.format = some "mml")

/-- `content = template ?? rawMessage`. -/
def resolveContent (p : SendPayload) : Option String :=
  resolveTemplate p <|> resolveRawMessage p

/-- `readString(envelope.idempotencyKey) ?? readString(payload.idempotencyKey)`. -/
def resolveIdemKey (envKey : Option String) (p : SendPayload) : Option String :=
  readString envKey <|> readString p.idempotencyKey

/-- The `mode` component of the idempotency entry key. -/
def sendMode (p : SendPayload) : String :=
  if useTemplateFlag p then "template" else "raw-message"

/-- `buildIdempotencyEntryKey`: `account-or-default :: mode :: idempotencyKey`. -/
def sendEntryKey (account : Option String) (p : SendPayload) (key : String) : String :=
  account.getD "default" ++ "::" ++ sendMode p ++ "::" ++ key

/-- Observable outcome of one `send_message` dispatch: the process exit code
returned to `main`, the response body's `ok` field, the optional
`idempotency.duplicate` / `idempotency.skippedSend` / `idempotency.conflict`
fields of the body, the error string when present, the idempotency store after
the call, and how many backend send commands were spawned. -/
structure SendResult where
  exitCode : Nat
  ok : Bool
  duplicate : Option Bool := none
  skippedSend : Option Bool := none
  conflict : Option Bool := none
  errorMsg : Option String := none
  store : IdemStore
  sends : Nat
deriving Repr, DecidableEq

/-- The short-circuit response for a duplicate idempotent send: exit 0, an
ok-true body carrying `duplicate:true, skippedSend:true`, no backend spawn. -/
def sendDuplicateResult (store : IdemStore) : SendResult :=
  { exitCode := 0, ok := true, duplicate := some true, skippedSend := some true
    store := store, sends := 0 }

/-- The send path: spawn `himalaya message send`/`template send` once; on
backend success with an idempotency key pending (`recordKey`), write the
key-to-hash record into the store.  `backendCode` is the spawned process exit
code (`none` models a null code after a kill). -/
def sendPerform (recordKey : Option String) (contentHash : String)
    (store : IdemStore) (backendCode : Option Int) : SendResult :=
  let okB : Bool := decide (backendCode = some 0)
  { exitCode := if okB then 0 else 3
    ok := okB
    duplicate := recordKey.map (fun _ => false)
    store :=
      if okB then
        match recordKey with
        | some entryKey => storeInsert store entryKey ⟨some contentHash⟩
        | none => store
      else store
    sends := 1 }

/-- Shallow embedding of `handleSendMessage`.  `hash` models `sha256Hex`,
`account` is the resolved `settings.account`, `envKey` the raw
`envelope.idempotencyKey`, `store` the parsed idempotency store, and
`backendCode` the exit code the backend send would produce if invoked. -/
def handleSendMessage (hash : String → String) (account : Option String)
    (envKey : Option String) (p : SendPayload) (store : IdemStore)
    (backendCode : Option Int) : SendResult :=
  if resolveRawMessage p = none ∧ resolveTemplate p = none then
    { exitCode := 2, ok := false
      errorMsg := some "payload.rawMessage (or payload.message/raw) or payload.template required"
      store := store, sends := 0 }
  else
    let contentHash := hash ((resolveContent p).getD "")
    if p.requireIdempotencyKey.getD false = true ∧ resolveIdemKey envKey p = none then
      { exitCode := 2, ok := false
        errorMsg := some "idempotencyKey required (payload.requireIdempotencyKey=true)"
        store := store, sends := 0 }
    else
      match resolveIdemKey envKey p with
      | some key =>
        let entryKey := sendEntryKey account p key
        match storeLookup store entryKey with
        | some existing =>
          match readString existing.contentHash with
          | some existingHash =>
            if existingHash ≠ contentHash then
              { exitCode := 2, ok := false, conflict := some true
                errorMsg := some "idempotency key reuse with different payload content"
                store := store, sends := 0 }
            else sendDuplicateResult store
          | none => sendDuplicateResult store
        | none => sendPerform (some entryKey) contentHash store backendCode
      | none => sendPerform none contentHash store backendCode

lemma storeLookup_insert_self (store : IdemStore) (key : String) (entry : IdemEntry) :
    storeLookup (storeInsert store key entry) key = some entry := by
  simp [storeLookup, storeInsert, List.find?]

lemma resolveContent_isSome_elim {p : SendPayload}
    (h : (resolveContent p).isSome = true) :
    ¬(resolveRawMessage p = none ∧ resolveTemplate p = none) := by
  rintro ⟨h1, h2⟩
  simp [resolveContent, h1, h2, Option.orElse] at h

lemma readString_eq_of_trim {s : String} (h : jsTrim s = s) :
    readString (some s) = if s = "" then none else some s := by
  simp [readString, h]

/-- When the idempotency key is fresh (no stored entry), `handleSendMessage`
reduces to the real send path that records on success. -/
lemma handleSendMessage_fresh_eq (hash : String → String)
    (account envKey : Option String) (p : SendPayload) (store : IdemStore)
    (backendCode : Option Int) (key : String)
    (hContent : (resolveContent p).isSome = true)
    (hKey : resolveIdemKey envKey p = some key)
    (hFresh : storeLookup store (sendEntryKey account p key) = none) :
    handleSendMessage hash account envKey p store backendCode =
      sendPerform (some (sendEntryKey account p key))
        (hash ((resolveContent p).getD "")) store backendCode := by
  have h1 := resolveContent_isSome_elim hContent
  have h2 : ¬(p.requireIdempotencyKey.getD false = true ∧
      resolveIdemKey envKey p = none) := by
    rintro ⟨-, h⟩
    rw [hKey] at h
    exact Option.noConfusion h
  simp only [handleSendMessage, if_neg h1, hKey, hFresh]
  simp

/-- When the stored entry carries exactly the current content hash (and that
hash is its own trim, as sha256 hex output always is), `handleSendMessage`
short-circuits into the duplicate response. -/
lemma handleSendMessage_dup_eq (hash : String → String)
    (account envKey : Option String) (p : SendPayload) (store : IdemStore)
    (backendCode : Option Int) (key : String)
    (hContent : (resolveContent p).isSome = true)
    (hKey : resolveIdemKey envKey p = some key)
    (hLook : storeLookup store (sendEntryKey account p key) =
      some ⟨some (hash ((resolveContent p).getD ""))⟩)
    (hHash : jsTrim (hash ((resolveContent p).getD "")) =
      hash ((resolveContent p).getD "")) :
    handleSendMessage hash account envKey p store backendCode =
      sendDuplicateResult store := by
  have h1 := resolveContent_isSome_elim hContent
  have h2 : ¬(p.requireIdempotencyKey.getD false = true ∧
      resolveIdemKey envKey p = none) := by
    rintro ⟨-, h⟩
    rw [hKey] at h
    exact Option.noConfusion h
  by_cases hch : hash ((resolveContent p).getD "") = ""
  · simp only [handleSendMessage, if_neg h1, hKey, hLook,
      readString_eq_of_trim hHash, if_pos hch]
    simp
  · simp only [handleSendMessage, if_neg h1, hKey, hLook,
      readString_eq_of_trim hHash, if_neg hch]
    simp

/-- C1: invoking the mail router's `send_message` twice with the same
idempotency key K and the same payload P (P carrying a message, K not yet in
the store, and the backend send succeeding on the first call) yields exit code
0 and an ok-true body both times; the second response carries
`idempotency.duplicate = true` and `idempotency.skippedSend = true`, and
exactly one backend send command is spawned across the two calls (the second
call never consults the backend, so its result `code2` is arbitrary). -/
theorem send_message_idempotent_duplicate (hash : String → String)
    (account envKey : Option String) (p : SendPayload) (store : IdemStore)
    (key : String) (code2 : Option Int)
    (hContent : (resolveContent p).isSome = true)
    (hKey : resolveIdemKey envKey p = some key)
    (hFresh : storeLookup store (sendEntryKey account p key) = none)
    (hHash : jsTrim (hash ((resolveContent p).getD "")) =
      hash ((resolveContent p).getD "")) :
    (handleSendMessage hash account envKey p store (some 0)).exitCode = 0 ∧
    (handleSendMessage hash account envKey p store (some 0)).ok = true ∧
    (handleSendMessage hash account envKey p
        (handleSendMessage hash account envKey p store (some 0)).store
        code2).exitCode = 0 ∧
    (handleSendMessage hash account envKey p
        (handleSendMessage hash account envKey p store (some 0)).store
        code2).ok = true ∧
    (handleSendMessage hash account envKey p
        (handleSendMessage hash account envKey p store (some 0)).store
        code2).duplicate = some true ∧
    (handleSendMessage hash account envKey p
        (handleSendMessage hash account envKey p store (some 0)).store
        code2).skippedSend = some true ∧
    (handleSendMessage hash account envKey p store (some 0)).sends +
      (handleSendMessage hash account envKey p
        (handleSendMessage hash account envKey p store (some 0)).store
        code2).sends = 1 := by
  have hfirst := handleSendMessage_fresh_eq hash account envKey p store
    (some 0) key hContent hKey hFresh
  have hstore : (handleSendMessage hash account envKey p store (some 0)).store =
      storeInsert store (sendEntryKey account p key)
        ⟨some (hash ((resolveContent p).getD ""))⟩ := by
    rw [hfirst]; simp [sendPerform]
  have hsecond := handleSendMessage_dup_eq hash account envKey p
    (storeInsert store (sendEntryKey account p key)
      ⟨some (hash ((resolveContent p).getD ""))⟩)
    code2 key hContent hKey
    (storeLookup_insert_self _ _ _) hHash
  rw [hstore, hfirst, hsecond]
  simp [sendPerform, sendDuplicateResult]

/-- Concrete instantiation of C1: a fresh store, key `send-42`, a raw message
payload, a hash function returning `h1`, backend success on the first call and
a (never consulted) failing backend on the second. -/
theorem send_message_idempotent_duplicate_witness :
    (handleSendMessage (fun _ => "h1") none (some "send-42")
      { rawMessage := some "Subject: Hello" } [] (some 0)).exitCode = 0 ∧
    (handleSendMessage (fun _ => "h1") none (some "send-42")
      { rawMessage := some "Subject: Hello" } [] (some 0)).ok = true ∧
    (handleSendMessage (fun _ => "h1") none (some "send-42")
      { rawMessage := some "Subject: Hello" }
      (handleSendMessage (fun _ => "h1") none (some "send-42")
        { rawMessage := some "Subject: Hello" } [] (some 0)).store
      (some 1)).exitCode = 0 ∧
    (handleSendMessage (fun _ => "h1") none (some "send-42")
      { rawMessage := some "Subject: Hello" }
      (handleSendMessage (fun _ => "h1") none (some "send-42")
        { rawMessage := some "Subject: Hello" } [] (some 0)).store
      (some 1)).ok = true ∧
    (handleSendMessage (fun _ => "h1") none (some "send-42")
      { rawMessage := some "Subject: Hello" }
      (handleSendMessage (fun _ => "h1") none (some "send-42")
        { rawMessage := some "Subject: Hello" } [] (some 0)).store
      (some 1)).duplicate = some true ∧
    (handleSendMessage (fun _ => "h1") none (some "send-42")
      { rawMessage := some "Subject: Hello" }
      (handleSendMessage (fun _ => "h1") none (some "send-42")
        { rawMessage := some "Subject: Hello" } [] (some 0)).store
      (some 1)).skippedSend = some true ∧
    (handleSendMessage (fun _ => "h1") none (some "send-42")
      { rawMessage := some "Subject: Hello" } [] (some 0)).sends +
      (handleSendMessage (fun _ => "h1") none (some "send-42")
        { rawMessage := some "Subject: Hello" }
        (handleSendMessage (fun _ => "h1") none (some "send-42")
          { rawMessage := some "Subject: Hello" } [] (some 0)).store
        (some 1)).sends = 1 :=
  send_message_idempotent_duplicate (fun _ => "h1") none (some "send-42")
    { rawMessage := some "Subject: Hello" } [] "send-42" (some 1)
    (by decide) (by decide) rfl (by decide)

/-- C2: reusing an idempotency key that is already recorded with content hash
H, with a message whose content hash differs from H, is rejected with exit
code 2, an ok-false body marking `idempotency.conflict = true`, no backend
send spawned, and the store untouched. -/
theorem send_message_conflict (hash : String → String)
    (account envKey : Option String) (p : SendPayload) (store : IdemStore)
    (key H : String) (existing : IdemEntry) (backendCode : Option Int)
    (hContent : (resolveContent p).isSome = true)
    (hKey : resolveIdemKey envKey p = some key)
    (hLook : storeLookup store (sendEntryKey account p key) = some existing)
    (hHash : readString existing.contentHash = some H)
    (hDiff : H ≠ hash ((resolveContent p).getD "")) :
    (handleSendMessage hash account envKey p store backendCode).exitCode = 2 ∧
    (handleSendMessage hash account envKey p store backendCode).ok = false ∧
    (handleSendMessage hash account envKey p store backendCode).conflict =
      some true ∧
    (handleSendMessage hash account envKey p store backendCode).sends = 0 ∧
    (handleSendMessage hash account envKey p store backendCode).store =
      store := by
  have h1 := resolveContent_isSome_elim hContent
  have h2 : ¬(p.requireIdempotencyKey.getD false = true ∧
      resolveIdemKey envKey p = none) := by
    rintro ⟨-, h⟩
    rw [hKey] at h
    exact Option.noConfusion h
  simp only [handleSendMessage, if_neg h1, hKey, hLook, hHash, ne_eq,
    if_pos hDiff]
  simp

/-- Concrete instantiation of C2: key `same-key` recorded with hash `hashA`,
retried with content hashing to `hashB`. -/
theorem send_message_conflict_witness :
    (handleSendMessage (fun _ => "hashB") none (some "same-key")
      { rawMessage := some "Subject: B" }
      [("default::raw-message::same-key", ⟨some "hashA"⟩)]
      (some 0)).exitCode = 2 ∧
    (handleSendMessage (fun _ => "hashB") none (some "same-key")
      { rawMessage := some "Subject: B" }
      [("default::raw-message::same-key", ⟨some "hashA"⟩)]
      (some 0)).ok = false ∧
    (handleSendMessage (fun _ => "hashB") none (some "same-key")
      { rawMessage := some "Subject: B" }
      [("default::raw-message::same-key", ⟨some "hashA"⟩)]
      (some 0)).conflict = some true ∧
    (handleSendMessage (fun _ => "hashB") none (some "same-key")
      { rawMessage := some "Subject: B" }
      [("default::raw-message::same-key", ⟨some "hashA"⟩)]
      (some 0)).sends = 0 ∧
    (handleSendMessage (fun _ => "hashB") none (some "same-key")
      { rawMessage := some "Subject: B" }
      [("default::raw-message::same-key", ⟨some "hashA"⟩)]
      (some 0)).store =
      [("default::raw-message::same-key", ⟨some "hashA"⟩)] :=
  send_message_conflict (fun _ => "hashB") none (some "same-key")
    { rawMessage := some "Subject: B" }
    [("default::raw-message::same-key", ⟨some "hashA"⟩)]
    "same-key" "hashA" ⟨some "hashA"⟩ (some 0)
    (by decide) (by decide) rfl (by decide) (by decide)

/-- C3: when the backend send fails (exit code not 0) on a keyed
`send_message`, no idempotency entry is recorded — the store is returned
unchanged and the call reports exit 3 with an ok-false body — so a retry with
the same key and content against that store performs a real backend send
(`sends = 1`) with `idempotency.duplicate = false`, not a duplicate
short-circuit. -/
theorem send_message_failure_not_recorded (hash : String → String)
    (account envKey : Option String) (p : SendPayload) (store : IdemStore)
    (key : String) (c code2 : Option Int)
    (hContent : (resolveContent p).isSome = true)
    (hKey : resolveIdemKey envKey p = some key)
    (hFresh : storeLookup store (sendEntryKey account p key) = none)
    (hFail : c ≠ some 0) :
    (handleSendMessage hash account envKey p store c).store = store ∧
    (handleSendMessage hash account envKey p store c).exitCode = 3 ∧
    (handleSendMessage hash account envKey p store c).ok = false ∧
    (handleSendMessage hash account envKey p store code2).duplicate =
      some false ∧
    (handleSendMessage hash account envKey p store code2).sends = 1 := by
  have hfirst := handleSendMessage_fresh_eq hash account envKey p store c key
    hContent hKey hFresh
  have hretry := handleSendMessage_fresh_eq hash account envKey p store code2
    key hContent hKey hFresh
  rw [hfirst, hretry]
  simp [sendPerform, hFail]

/-- Concrete instantiation of C3: a failing backend (exit 1) on key
`send-42` over an empty store; the retry is run with a succeeding backend. -/
theorem send_message_failure_not_recorded_witness :
    (handleSendMessage (fun _ => "h1") none (some "send-42")
      { rawMessage := some "Subject: Hello" } [] (some 1)).store = [] ∧
    (handleSendMessage (fun _ => "h1") none (some "send-42")
      { rawMessage := some "Subject: Hello" } [] (some 1)).exitCode = 3 ∧
    (handleSendMessage (fun _ => "h1") none (some "send-42")
      { rawMessage := some "Subject: Hello" } [] (some 1)).ok = false ∧
    (handleSendMessage (fun _ => "h1") none (some "send-42")
      { rawMessage := some "Subject: Hello" } [] (some 0)).duplicate =
      some false ∧
    (handleSendMessage (fun _ => "h1") none (some "send-42")
      { rawMessage := some "Subject: Hello" } [] (some 0)).sends = 1 :=
  send_message_failure_not_recorded (fun _ => "h1") none (some "send-42")
    { rawMessage := some "Subject: Hello" } [] "send-42" (some 1) (some 0)
    (by decide) (by decide) rfl (by decide)

/-! ### Envelope parsing and entry control flow

`Stdin` classifies what the adapters see on standard input: an empty (or
whitespace-only) stream, text that `JSON.parse` rejects, or a parsed JSON
value.  Empty and unparsable input make `readJsonStdin` throw, so control
reaches each adapter's outermost `main().catch` handler; a parsed non-object
value fails the `isRecord` check instead. -/

/-- A JSON value, as produced by `JSON.parse`. -/
inductive Json where
  | null
  | bool (b : Bool)
  | num (n : Int)
  | str (s : String)
  | arr (items : List Json)
  | obj (fields : List (String × Json))

/-- `isRecord(value)`: a non-null, non-array object. -/
def Json.isRecord : Json → Bool
  | .obj _ => true
  | _ => false

/-- Property access `value[name]` on a JSON value (`none` when absent or when
the value is not an object). -/
def Json.field (v : Json) (name : String) : Option Json :=
  match v with
  | .obj fields => (fields.find? (fun kv => kv.1 == name)).map (fun kv => kv.2)
  | _ => none

/-- `readString(envelope[name])`: the field must be a string with non-empty
trim. -/
def Json.fieldString (v : Json) (name : String) : Option String :=
  match v.field name with
  | some (.str s) => readString (some s)
  | _ => none

/-- What an adapter process reads from standard input. -/
inductive Stdin where
  | empty
  | malformed
  | parsed (v : Json)

/-- Exit data of an adapter process that terminated before (or instead of)
running an action handler: `process.exit` code, the response body's `ok`
field, and the body's `supportedActions` list when one is emitted. -/
structure EntryExit where
  code : Nat
  ok : Bool
  supportedActions : Option (List String)
deriving Repr, DecidableEq

/-- Either the adapter exited during envelope validation, or it went on to
dispatch the named action. -/
inductive EntryOutcome where
  | exited (e : EntryExit)
  | dispatched (action : String)

/-- The `process.exit` code when the entry phase terminated the process. -/
def EntryOutcome.exitCode : EntryOutcome → Option Nat
  | .exited e => some e.code
  | .dispatched _ => none

/-- The mail router's enumerated action set, as listed in `dispatch`'s
`default` branch of himalaya-mail-adapter.js. -/
def mailSupportedActions : List String :=
  ["health", "list_accounts", "list_folders", "list_messages", "search",
   "get_message", "draft_reply", "send_message", "archive", "delete_messages",
   "purge_folder", "mark_read", "label"]

/-- The mail adapter's `dispatch`: a `switch` over the thirteen supported
action names; the `default` branch answers exit code 2 with an ok-false body
listing `supportedActions`. -/
def mailDispatch (action : String) : EntryOutcome :=
  if action ∈ mailSupportedActions then .dispatched action
  else .exited ⟨2, false, some mailSupportedActions⟩

/-- The mail adapter's `main` plus its outermost `catch`: empty or unparsable
stdin throws inside `main`, reaching `main().catch` which exits 99; a parsed
non-object envelope exits 2; a missing/blank `action` exits 2; otherwise the
action is dispatched. -/
def mailEntry : Stdin → EntryOutcome
  | .empty => .exited ⟨99, false, none⟩
  | .malformed => .exited ⟨99, false, none⟩
  | .parsed v =>
    if v.isRecord then
      match v.fieldString "action" with
      | none => .exited ⟨2, false, none⟩
      | some action => mailDispatch action
    else .exited ⟨2, false, none⟩

/-- The calendar router's enumerated action set (mowen-api-adapter.js,
embedded macos-calendar-jxa adapter, `supportedActions` in `main`). -/
def calendarSupportedActions : List String :=
  ["health", "list_calendars", "list_events", "search", "get_event",
   "create_event", "update_event", "delete_event"]

/-- The calendar adapter's `main` after envelope parsing: missing action exits
2; an action outside `supportedActions` exits 2 with the list echoed in the
body; otherwise the action is dispatched. -/
def calendarMain (actionRaw : Option String) : EntryOutcome :=
  match readString actionRaw with
  | none => .exited ⟨2, false, none⟩
  | some action =>
    if action ∈ calendarSupportedActions then .dispatched action
    else .exited ⟨2, false, some calendarSupportedActions⟩

/-- The calendar adapter's `main` plus its outermost `catch` (which exits 1):
empty or unparsable stdin exits 1; a non-object envelope exits 2. -/
def calendarEntry : Stdin → EntryOutcome
  | .empty => .exited ⟨1, false, none⟩
  | .malformed => .exited ⟨1, false, none⟩
  | .parsed v =>
    if v.isRecord then
      calendarMain (match v.field "action" with
        | some (.str s) => some s
        | _ => none)
    else .exited ⟨2, false, none⟩

/-- The notes (mowen) adapter's `main` plus its outermost `catch` (which
exits 2): empty, unparsable, and non-object input all exit 2; with an object
envelope, a missing/blank `action` exits 2 and otherwise `main` continues
with that action. -/
def mowenEntry : Stdin → EntryOutcome
  | .empty => .exited ⟨2, false, none⟩
  | .malformed => .exited ⟨2, false, none⟩
  | .parsed v =>
    if v.isRecord then
      match v.fieldString "action" with
      | none => .exited ⟨2, false, none⟩
      | some action => .dispatched action
    else .exited ⟨2, false, none⟩

/-! ### Notes (mowen) adapter: `main` of mowen-api-adapter.js

The flow after envelope validation is modelled with explicit effect counters:
`httpCalls` counts `fetch` invocations, `rateLimiterUsed` records whether
`applyRateLimit` ran, and `actionNormalized` records whether control flow got
as far as `normalizeAction` (it does not when the envelope's `domain` check
rejects the request). -/

/-- `normalizeAction`: alias mapping from external doc-style names to the
backend's note names. -/
def normalizeAction (action : String) : String :=
  if action = "create_doc" then "create_note"
  else if action = "update_doc" then "edit_note"
  else if action = "set_doc" then "set_note"
  else action

/-- Actions the notes adapter rejects explicitly with an explanatory
message. -/
def mowenRejectedActions : List String :=
  ["append_doc", "read_doc", "search", "list_spaces"]

/-- `unsupportedActionMessage`. -/
def unsupportedActionMessage (action : String) : String :=
  if action = "append_doc" then
    "append_doc is not supported by Mowen OpenAPI directly (no read/merge helper in adapter). Use edit_note/update_doc with an explicit NoteAtom body."
  else if action = "read_doc" ∨ action = "search" ∨ action = "list_spaces" then
    action ++ " is not available in the current Mowen OpenAPI docs. Supported actions: create/edit/set note and upload APIs."
  else
    "unsupported action: " ++ action

/-- `resolveEndpointAndRequest`: the endpoint path for each dispatchable
backend action, `none` for everything else. -/
def mowenEndpointPath (action : String) : Option String :=
  if action = "create_note" then some "/api/open/api/v1/note/create"
  else if action = "edit_note" then some "/api/open/api/v1/note/edit"
  else if action = "set_note" then some "/api/open/api/v1/note/set"
  else if action = "upload_prepare" then some "/api/open/api/v1/upload/prepare"
  else if action = "upload_url" then some "/api/open/api/v1/upload/url"
  else none

/-- The notes router's enumerated action set (external names accepted by the
adapter: the three doc-style aliases, their native forms, uploads, and
health). -/
def mowenActions : List String :=
  ["health", "create_doc", "update_doc", "set_doc", "create_note",
   "edit_note", "set_note", "upload_prepare", "upload_url"]

/-- Observable outcome of one notes-adapter run past envelope parsing: exit
code, the body's `ok`, `error` string when present, the body's
`supportedActions` list when one is emitted (the notes adapter never emits
one), the number of HTTP calls issued, whether `applyRateLimit` ran, and
whether control reached `normalizeAction`. -/
structure MowenOutcome where
  exitCode : Nat
  ok : Bool
  errorMsg : Option String
  supportedActions : Option (List String)
  httpCalls : Nat
  rateLimiterUsed : Bool
  actionNormalized : Bool
deriving Repr, DecidableEq

/-- `sanitizeForHealth` (mowen-api-adapter.js:161-181): the health body's
`ok` and `configured.apiKey` are both `Boolean(settings.apiKey)`; no call is
made. -/
structure MowenHealthBody where
  ok : Bool
  configuredApiKey : Bool
deriving Repr, DecidableEq

def sanitizeForHealth (apiKey : Option String) : MowenHealthBody :=
  { ok := apiKey.isSome, configuredApiKey := apiKey.isSome }

/-- The notes adapter's `main` from `normalizeAction` onwards (the action is
already resolved and the domain check passed).  `apiKey` is the resolved
`settings.apiKey`; `buildExc` is `some msg` when the request builder for a
dispatchable action throws (that exception escapes `resolveEndpointAndRequest`
and is caught by `main().catch`, which exits 2); `httpOk` is `response.ok` of
the one `fetch` call. -/
def mowenAfterDomain (apiKey : Option String) (action : String)
    (buildExc : Option String) (httpOk : Bool) : MowenOutcome :=
  let mapped := normalizeAction action
  if mapped = "health" then
    { exitCode := 0, ok := (sanitizeForHealth apiKey).ok, errorMsg := none
      supportedActions := none, httpCalls := 0, rateLimiterUsed := false
      actionNormalized := true }
  else if mapped ∈ mowenRejectedActions then
    { exitCode := 2, ok := false
      errorMsg := some (unsupportedActionMessage mapped)
      supportedActions := none, httpCalls := 0, rateLimiterUsed := false
      actionNormalized := true }
  else if apiKey = none then
    { exitCode := 2, ok := false
      errorMsg := some "Missing API key. Set MYOPS_MOWEN_API_KEY or payload.apiKey"
      supportedActions := none, httpCalls := 0, rateLimiterUsed := false
      actionNormalized := true }
  else
    match mowenEndpointPath mapped with
    | none =>
      { exitCode := 2, ok := false
        errorMsg := some (unsupportedActionMessage mapped)
        supportedActions := none, httpCalls := 0, rateLimiterUsed := false
        actionNormalized := true }
    | some _ =>
      match buildExc with
      | some msg =>
        { exitCode := 2, ok := false
          errorMsg := some ("adapter crashed: " ++ msg)
          supportedActions := none, httpCalls := 0, rateLimiterUsed := false
          actionNormalized := true }
      | none =>
        { exitCode := if httpOk then 0 else 2, ok := httpOk
          errorMsg := none, supportedActions := none, httpCalls := 1
          rateLimiterUsed := true, actionNormalized := true }

/-- The notes adapter's `main` after envelope parsing: check `action`
presence, then the `domain` guard (a present, non-blank domain must equal
`mowen`), then continue with the normalized action.  `domainRaw` and
`actionRaw` are the raw JS field values (`none` when absent or not a
string). -/
def mowenMain (apiKey : Option String) (domainRaw actionRaw : Option String)
    (buildExc : Option String) (httpOk : Bool) : MowenOutcome :=
  match readString actionRaw with
  | none =>
    { exitCode := 2, ok := false
      errorMsg := some "envelope.action is required"
      supportedActions := none, httpCalls := 0, rateLimiterUsed := false
      actionNormalized := false }
  | some action =>
    match readString domainRaw with
    | some d =>
      if d ≠ "mowen" then
        { exitCode := 2, ok := false
          errorMsg := some ("unexpected domain \x27" ++ d ++
            "\x27, expected \x27mowen\x27")
          supportedActions := none, httpCalls := 0, rateLimiterUsed := false
          actionNormalized := false }
      else mowenAfterDomain apiKey action buildExc httpOk
    | none => mowenAfterDomain apiKey action buildExc httpOk

/-! ### Mail adapter: `handleHealth` (himalaya-mail-adapter.js:343-409)

`handleHealth` runs `himalaya --version`; if spawning throws it answers an
ok-false body with exit 3.  Otherwise it always builds the body with
`envelopeOkResponse` (so `ok` is `true` even when the version check failed),
reports the check result in `checks.binaryOk`, and sets the process exit code
from the version check. -/

/-- Observable outcome of the mail `health` action: exit code, the body's
`ok`, the body's `checks.binaryOk` (absent when spawning threw), and the
body's `probe.requested` flag. -/
structure MailHealthResult where
  exitCode : Nat
  bodyOk : Bool
  binaryOk : Option Bool
  probeRequested : Option Bool
deriving Repr, DecidableEq

/-- Shallow embedding of `handleHealth`.  `spawnOk` is whether
`runCommand([binary, "--version"])` resolved (as opposed to the spawn
throwing), `versionCode` its exit code, and `deep` the payload's deep-probe
flag. -/
def handleHealth (spawnOk : Bool) (versionCode : Option Int) (deep : Bool) :
    MailHealthResult :=
  if spawnOk then
    { exitCode := if versionCode = some 0 then 0 else 3
      bodyOk := true
      binaryOk := some (decide (versionCode = some 0))
      probeRequested := some deep }
  else
    { exitCode := 3, bodyOk := false, binaryOk := none, probeRequested := none }

/-! ### Calendar adapter: `listEvents` and `ensureEventTimes`
(embedded JXA script of mowen-api-adapter.js)

Timestamps are modelled as integer epoch milliseconds.  A row is the JSON an
event is rendered to by `eventToJson`: `startMs`/`endMs` are `none` when the
rendered ISO string is missing or does not parse to a finite time (the JS
code's `Number.NaN` case), string fields are `none` when `null`.  The event
lists of all selected calendars are modelled as one flattened list, since the
JS loop only concatenates per-calendar results. -/

/-- One rendered event row. -/
structure CalendarRow where
  id : Option String
  startMs : Option Int
  endMs : Option Int
  title : Option String
  location : Option String
  notes : Option String
deriving Repr, DecidableEq

/-- `clampPositiveInt(v, fallback, max)` for the already-numeric case
(`none` models a missing or non-numeric value). -/
def clampPositiveInt (v : Option Int) (fallback mx : Nat) : Nat :=
  match v with
  | none => fallback
  | some n => if n ≤ 0 then fallback else min n.toNat mx

/-- JS `String.prototype.toLowerCase` over the character list (ASCII case
folding via `Char.toLower`, which covers every string the claims use). -/
def jsToLower (s : String) : String :=
  String.mk (s.data.map Char.toLower)

/-- `haystack.indexOf(needle) >= 0` over character lists. -/
def listContainsSeq (needle : List Char) : List Char → Bool
  | [] => needle.isEmpty
  | c :: rest => needle.isPrefixOf (c :: rest) || listContainsSeq needle rest

/-- Substring containment, as used by the query filter. -/
def strContains (haystack needle : String) : Bool :=
  listContainsSeq needle.data haystack.data

/-- The per-row haystack for the query filter:
`[row.title, row.location, includeNotes ? row.notes : null]` with null and
empty entries dropped, joined by newline, lowercased. -/
def rowHay (includeNotes : Bool) (row : CalendarRow) : String :=
  jsToLower (String.intercalate "\n"
    (([row.title, row.location,
        if includeNotes then row.notes else none].filterMap id).filter
      (fun s => s ≠ "")))

/-- The body of the JS listing loop for one row: skip rows without an id or
without finite start/end times, keep a row only when
`startMs < range.end && endMs > range.start` (the half-open overlap test),
and, when a non-empty query is set, only when the haystack contains it. -/
def keepRow (rangeStart rangeEnd : Int) (query : String) (includeNotes : Bool)
    (row : CalendarRow) : Bool :=
  row.id.isSome && row.startMs.isSome && row.endMs.isSome &&
  (decide (row.startMs.getD 0 < rangeEnd) &&
    decide (row.endMs.getD 0 > rangeStart)) &&
  (query == "" || strContains (rowHay includeNotes row) query)

/-- `if (!includeNotes) delete row.notes`. -/
def stripNotes (includeNotes : Bool) (row : CalendarRow) : CalendarRow :=
  if includeNotes then row else { row with notes := none }

/-- The result comparator: ascending start time, ties broken by title. -/
def rowLe (a b : CalendarRow) : Bool :=
  let sa := a.startMs.getD 0
  let sb := b.startMs.getD 0
  if sa = sb then decide (a.title.getD "" ≤ b.title.getD "") else decide (sa < sb)

/-- Shallow embedding of the JXA `listEvents` body (mowen-api-adapter.js,
embedded script): filter the flattened rows of the selected calendars by the
overlap test and the optional query, strip notes unless requested, sort, and
truncate to the clamped limit.  `queryRaw` is the raw `payload.query`
(`none` when absent or not a string) and `limitRaw` the raw numeric
`payload.limit`. -/
def listEvents (events : List CalendarRow) (rangeStart rangeEnd : Int)
    (queryRaw : Option String) (includeNotes : Bool) (limitRaw : Option Int) :
    List CalendarRow :=
  let query := match queryRaw with
    | some s => jsToLower (jsTrim s)
    | none => ""
  let limit := clampPositiveInt limitRaw 50 500
  let items :=
    ((events.filter (keepRow rangeStart rangeEnd query includeNotes)).map
      (stripNotes includeNotes)).mergeSort rowLe
  if limit < items.length then items.take limit else items

/-- `ensureEventTimes` (embedded JXA script): with `payload.end` absent the
end defaults to start plus 24 hours for all-day events and 1 hour otherwise
(`setHours` modelled as fixed-offset millisecond arithmetic); the resulting
end must be strictly after the start or the call throws. -/
def ensureEventTimes (allDay : Bool) (startMs : Int) (endOpt : Option Int) :
    Except String (Int × Int × Bool) :=
  let e := match endOpt with
    | some v => v
    | none => startMs + (if allDay then 24 else 1) * 3600000
  if startMs < e then Except.ok (startMs, e, allDay)
  else Except.error "payload.end must be later than payload.start"

/-! ### Theorems for the router-level and entry-level claims -/

lemma mowenAfterDomain_unknown (apiKey : Option String)
    (buildExc : Option String) (httpOk : Bool) {a : String}
    (h : a ∉ mowenActions) :
    (mowenAfterDomain apiKey a buildExc httpOk).exitCode = 2 ∧
    (mowenAfterDomain apiKey a buildExc httpOk).ok = false ∧
    (mowenAfterDomain apiKey a buildExc httpOk).supportedActions = none := by
  simp only [mowenActions, List.mem_cons, List.not_mem_nil, or_false,
    not_or] at h
  obtain ⟨h1, h2, h3, h4, h5, h6, h7, h8, h9⟩ := h
  have hne : normalizeAction a = a := by
    simp [normalizeAction, h2, h3, h4]
  simp only [mowenAfterDomain, hne, if_neg h1]
  by_cases hrej : a ∈ mowenRejectedActions
  · simp [if_pos hrej]
  · rw [if_neg hrej]
    by_cases hkey : apiKey = none
    · simp [if_pos hkey]
    · have hep : mowenEndpointPath a = none := by
        simp [mowenEndpointPath, h5, h6, h7, h8, h9]
      rw [if_neg hkey]
      simp only [hep]
      cases buildExc <;> simp

/-- C4 counterexample: the notes router, dispatching the unknown action
`foo` with an API key configured, answers exit code 2 and ok=false, but its
response body carries no `supportedActions` list — the error string is just
`unsupported action: foo` — so the claim that every router's
unknown-action response lists the supported action set is false. -/
theorem mowen_unknown_action_lists_nothing :
    (mowenMain (some "k") none (some "foo") none true).exitCode = 2 ∧
    (mowenMain (some "k") none (some "foo") none true).ok = false ∧
    (mowenMain (some "k") none (some "foo") none true).supportedActions =
      none ∧
    (mowenMain (some "k") none (some "foo") none true).errorMsg =
      some "unsupported action: foo" := by
  refine ⟨rfl, rfl, rfl, rfl⟩

/-- C4 (amended): dispatching an action outside the enumerated set yields
ok=false and exit code 2 on every router, and the mail and calendar
responses list the supported action set; the notes router's response carries
no such list. -/
theorem unknown_action_rejection :
    (∀ a : String, a ∉ mailSupportedActions →
      mailDispatch a =
        EntryOutcome.exited ⟨2, false, some mailSupportedActions⟩) ∧
    (∀ (aRaw : Option String) (a : String), readString aRaw = some a →
      a ∉ calendarSupportedActions →
      calendarMain aRaw =
        EntryOutcome.exited ⟨2, false, some calendarSupportedActions⟩) ∧
    (∀ (apiKey buildExc : Option String) (httpOk : Bool)
        (aRaw : Option String) (a : String), readString aRaw = some a →
      a ∉ mowenActions →
      (mowenMain apiKey none aRaw buildExc httpOk).exitCode = 2 ∧
      (mowenMain apiKey none aRaw buildExc httpOk).ok = false ∧
      (mowenMain apiKey none aRaw buildExc httpOk).supportedActions =
        none) := by
  refine ⟨?_, ?_, ?_⟩
  · intro a h
    simp [mailDispatch, h]
  · intro aRaw a h1 h2
    simp [calendarMain, h1, h2]
  · intro apiKey buildExc httpOk aRaw a h1 h2
    simp only [mowenMain, h1]
    exact mowenAfterDomain_unknown apiKey buildExc httpOk h2

/-- Concrete instantiation of the amended C4: the unknown actions `foo`
(mail), `foo` (calendar) and `bar` (notes, API key configured). -/
theorem unknown_action_rejection_witness :
    mailDispatch "foo" =
      EntryOutcome.exited ⟨2, false, some mailSupportedActions⟩ ∧
    calendarMain (some "foo") =
      EntryOutcome.exited ⟨2, false, some calendarSupportedActions⟩ ∧
    (mowenMain (some "k") none (some "bar") none true).exitCode = 2 :=
  ⟨unknown_action_rejection.1 "foo" (by decide),
   unknown_action_rejection.2.1 (some "foo") "foo" (by decide) (by decide),
   (unknown_action_rejection.2.2 (some "k") none true (some "bar") "bar"
     (by decide) (by decide)).1⟩

/-- C5 counterexample: an empty input stream makes the mail adapter's
`readJsonStdin` throw, which reaches `main().catch` and exits with code 99,
not with the validation code 2 the claim asserts. -/
theorem mail_empty_stdin_exits_99 :
    (mailEntry Stdin.empty).exitCode = some 99 ∧
    (mailEntry Stdin.empty).exitCode ≠ some 2 := by
  refine ⟨rfl, by decide⟩

/-- C5 (amended): a parsed non-object envelope exits with the validation
code 2 on all three adapters, but empty or unparsable input reaches each
adapter's crash handler instead: exit 2 on the notes adapter, 99 on the mail
adapter, and 1 on the calendar adapter. -/
theorem malformed_input_exit_codes :
    (mowenEntry Stdin.empty).exitCode = some 2 ∧
    (mowenEntry Stdin.malformed).exitCode = some 2 ∧
    (∀ v : Json, v.isRecord = false →
      (mowenEntry (Stdin.parsed v)).exitCode = some 2) ∧
    (mailEntry Stdin.empty).exitCode = some 99 ∧
    (mailEntry Stdin.malformed).exitCode = some 99 ∧
    (∀ v : Json, v.isRecord = false →
      (mailEntry (Stdin.parsed v)).exitCode = some 2) ∧
    (calendarEntry Stdin.empty).exitCode = some 1 ∧
    (calendarEntry Stdin.malformed).exitCode = some 1 ∧
    (∀ v : Json, v.isRecord = false →
      (calendarEntry (Stdin.parsed v)).exitCode = some 2) := by
  refine ⟨rfl, rfl, ?_, rfl, rfl, ?_, rfl, rfl, ?_⟩ <;>
    intro v h <;>
    simp [mowenEntry, mailEntry, calendarEntry, EntryOutcome.exitCode, h]

/-- Concrete instantiation of the amended C5: a string, a number, and null as
parsed non-object envelopes. -/
theorem malformed_input_exit_codes_witness :
    (mowenEntry (Stdin.parsed (Json.str "x"))).exitCode = some 2 ∧
    (mailEntry (Stdin.parsed (Json.num 42))).exitCode = some 2 ∧
    (calendarEntry (Stdin.parsed Json.null)).exitCode = some 2 :=
  ⟨malformed_input_exit_codes.2.2.1 (Json.str "x") rfl,
   malformed_input_exit_codes.2.2.2.2.2.1 (Json.num 42) rfl,
   malformed_input_exit_codes.2.2.2.2.2.2.2.2 Json.null rfl⟩

/-- C6 counterexample: when `himalaya --version` spawns but exits 1, the
mail health response body still has `ok = true` (the handler always builds it
with `envelopeOkResponse`) even though the binary check failed
(`checks.binaryOk = false`) and the process exits 3 — so `ok` is not true iff
the backend binary check succeeded. -/
theorem mail_health_ok_true_with_failed_check :
    (handleHealth true (some 1) false).bodyOk = true ∧
    (handleHealth true (some 1) false).binaryOk = some false ∧
    (handleHealth true (some 1) false).exitCode = 3 := by
  refine ⟨rfl, by decide, rfl⟩

/-- C6 (amended): the mail health body's `ok` is true whenever the binary
could be spawned, regardless of the version check's outcome — the check
result is reported in `checks.binaryOk` and in the process exit code — and is
false (with exit 3) only when spawning throws; the notes health body's `ok`
is true exactly when the API key is configured, with exit code 0 either
way. -/
theorem health_ok_semantics :
    (∀ (versionCode : Option Int) (deep : Bool),
      (handleHealth true versionCode deep).bodyOk = true ∧
      (handleHealth true versionCode deep).binaryOk =
        some (decide (versionCode = some 0)) ∧
      (handleHealth true versionCode deep).exitCode =
        (if versionCode = some 0 then 0 else 3)) ∧
    (∀ (versionCode : Option Int) (deep : Bool),
      (handleHealth false versionCode deep).bodyOk = false ∧
      (handleHealth false versionCode deep).exitCode = 3) ∧
    (∀ apiKey : Option String, (sanitizeForHealth apiKey).ok = apiKey.isSome) ∧
    (∀ (apiKey buildExc : Option String) (httpOk : Bool),
      (mowenAfterDomain apiKey "health" buildExc httpOk).ok = apiKey.isSome ∧
      (mowenAfterDomain apiKey "health" buildExc httpOk).exitCode = 0) := by
  refine ⟨?_, ?_, ?_, ?_⟩
  · intro versionCode deep
    simp [handleHealth]
  · intro versionCode deep
    simp [handleHealth]
  · intro apiKey
    simp [sanitizeForHealth]
  · intro apiKey buildExc httpOk
    simp +decide [mowenAfterDomain, normalizeAction, sanitizeForHealth]

lemma mowenAfterDomain_health (apiKey buildExc : Option String)
    (httpOk : Bool) :
    mowenAfterDomain apiKey "health" buildExc httpOk =
      { exitCode := 0, ok := apiKey.isSome, errorMsg := none
        supportedActions := none, httpCalls := 0, rateLimiterUsed := false
        actionNormalized := true } := rfl

/-- C9: the notes router's `health` action exits 0 having issued zero HTTP
calls and without acquiring the rate limiter, for every configuration state
(API key configured or not), whenever the envelope's domain guard passes. -/
theorem mowen_health_local_only (apiKey domainRaw buildExc : Option String)
    (httpOk : Bool)
    (hdom : readString domainRaw = none ∨ readString domainRaw = some "mowen") :
    (mowenMain apiKey domainRaw (some "health") buildExc httpOk).httpCalls =
      0 ∧
    (mowenMain apiKey domainRaw (some "health") buildExc
      httpOk).rateLimiterUsed = false ∧
    (mowenMain apiKey domainRaw (some "health") buildExc httpOk).exitCode =
      0 := by
  have hact : readString (some "health") = some "health" := rfl
  rcases hdom with h | h <;>
    simp [mowenMain, hact, h, mowenAfterDomain_health]

/-- Concrete instantiation of C9: no API key configured, no domain field. -/
theorem mowen_health_local_only_witness :
    (mowenMain none none (some "health") none true).httpCalls = 0 ∧
    (mowenMain none none (some "health") none true).rateLimiterUsed = false ∧
    (mowenMain none none (some "health") none true).exitCode = 0 :=
  mowen_health_local_only none none none true (Or.inl rfl)

/-- C10: every envelope whose `domain` field trims to a non-empty string
different from `mowen` (the spec's own name `notes` included) is rejected by
the notes adapter with ok=false and exit code 2 before the action is
normalized, with no HTTP call and no rate-limiter acquisition; an absent
domain field is accepted (`health` then exits 0). -/
theorem mowen_foreign_domain_rejected :
    (∀ (apiKey actionRaw buildExc : Option String) (httpOk : Bool)
        (domainRaw : Option String) (d : String),
      readString domainRaw = some d → d ≠ "mowen" →
      (mowenMain apiKey domainRaw actionRaw buildExc httpOk).exitCode = 2 ∧
      (mowenMain apiKey domainRaw actionRaw buildExc httpOk).ok = false ∧
      (mowenMain apiKey domainRaw actionRaw buildExc httpOk).httpCalls = 0 ∧
      (mowenMain apiKey domainRaw actionRaw buildExc
        httpOk).rateLimiterUsed = false ∧
      (mowenMain apiKey domainRaw actionRaw buildExc
        httpOk).actionNormalized = false) ∧
    (∀ (apiKey buildExc : Option String) (httpOk : Bool),
      (mowenMain apiKey none (some "health") buildExc httpOk).exitCode =
        0) := by
  constructor
  · intro apiKey actionRaw buildExc httpOk domainRaw d hdom hne
    cases hact : readString actionRaw <;>
      simp [mowenMain, hact, hdom, if_pos hne]
  · intro apiKey buildExc httpOk
    have hact : readString (some "health") = some "health" := rfl
    have hdom : readString none = none := rfl
    simp [mowenMain, hact, hdom, mowenAfterDomain_health]

/-- Concrete instantiation of C10: domain `notes` with action `create_doc`
and an API key configured. -/
theorem mowen_foreign_domain_rejected_witness :
    (mowenMain (some "k") (some "notes") (some "create_doc") none
      true).exitCode = 2 ∧
    (mowenMain (some "k") (some "notes") (some "create_doc") none
      true).ok = false ∧
    (mowenMain (some "k") (some "notes") (some "create_doc") none
      true).httpCalls = 0 ∧
    (mowenMain (some "k") (some "notes") (some "create_doc") none
      true).rateLimiterUsed = false ∧
    (mowenMain (some "k") (some "notes") (some "create_doc") none
      true).actionNormalized = false :=
  mowen_foreign_domain_rejected.1 (some "k") (some "create_doc") none true
    (some "notes") "notes" (by decide) (by decide)

lemma stripNotes_id (b : Bool) (r : CalendarRow) :
    (stripNotes b r).id = r.id := by
  cases b <;> simp [stripNotes]

lemma stripNotes_startMs (b : Bool) (r : CalendarRow) :
    (stripNotes b r).startMs = r.startMs := by
  cases b <;> simp [stripNotes]

lemma stripNotes_endMs (b : Bool) (r : CalendarRow) :
    (stripNotes b r).endMs = r.endMs := by
  cases b <;> simp [stripNotes]

lemma keepRow_no_query {rangeStart rangeEnd : Int} {includeNotes : Bool}
    {row : CalendarRow} :
    keepRow rangeStart rangeEnd "" includeNotes row = true ↔
      row.id.isSome = true ∧ row.startMs.isSome = true ∧
      row.endMs.isSome = true ∧
      row.startMs.getD 0 < rangeEnd ∧ rangeStart < row.endMs.getD 0 := by
  simp [keepRow]
  tauto

/-- C7: with no query set, an event row that has an id and finite start/end
times `s`/`e` appears in the `list_events`/`search` listing over the range
`[rangeStart, rangeEnd)` (up to the notes-stripping applied to emitted rows,
and with the result within the limit) if and only if `s < rangeEnd` and
`e > rangeStart` — the half-open interval overlap test, not containment; in
particular a row with `s = rangeEnd` is excluded. -/
theorem listEvents_overlap (events : List CalendarRow)
    (rangeStart rangeEnd : Int) (includeNotes : Bool) (limitRaw : Option Int)
    (row : CalendarRow) (s e : Int)
    (hmem : row ∈ events) (hid : row.id.isSome = true)
    (hs : row.startMs = some s) (he : row.endMs = some e)
    (hlim : (events.filter
        (keepRow rangeStart rangeEnd "" includeNotes)).length ≤
      clampPositiveInt limitRaw 50 500) :
    stripNotes includeNotes row ∈
        listEvents events rangeStart rangeEnd none includeNotes limitRaw ↔
      (s < rangeEnd ∧ e > rangeStart) := by
  have hnotlt : ¬(clampPositiveInt limitRaw 50 500 <
      (((events.filter (keepRow rangeStart rangeEnd "" includeNotes)).map
        (stripNotes includeNotes)).mergeSort rowLe).length) := by
    simp only [List.length_mergeSort, List.length_map]
    omega
  simp only [listEvents, if_neg hnotlt, List.mem_mergeSort, List.mem_map]
  constructor
  · rintro ⟨r, hr, heq⟩
    rw [List.mem_filter] at hr
    have hrs : r.startMs = row.startMs := by
      rw [← stripNotes_startMs includeNotes r, heq, stripNotes_startMs]
    have hre : r.endMs = row.endMs := by
      rw [← stripNotes_endMs includeNotes r, heq, stripNotes_endMs]
    have hk := keepRow_no_query.mp hr.2
    rw [hrs, hre, hs, he] at hk
    simpa using ⟨hk.2.2.2.1, hk.2.2.2.2⟩
  · rintro ⟨h1, h2⟩
    refine ⟨row, List.mem_filter.mpr ⟨hmem, keepRow_no_query.mpr ?_⟩, rfl⟩
    refine ⟨hid, by simp [hs], by simp [he], by simp [hs, h1], by simp [he, h2]⟩

/-- Concrete instantiation of C7 — the spec's own example in minutes: E1
10:00-11:00 and E2 11:30-12:00 against the query range 10:30-11:30; E1 is
listed and E2, whose start equals the range end, is not. -/
theorem listEvents_overlap_witness :
    stripNotes true ⟨some "e1", some 600, some 660, some "standup", none,
        none⟩ ∈
      listEvents
        [⟨some "e1", some 600, some 660, some "standup", none, none⟩,
         ⟨some "e2", some 690, some 720, some "lunch", none, none⟩]
        630 690 none true none ∧
    stripNotes true ⟨some "e2", some 690, some 720, some "lunch", none,
        none⟩ ∉
      listEvents
        [⟨some "e1", some 600, some 660, some "standup", none, none⟩,
         ⟨some "e2", some 690, some 720, some "lunch", none, none⟩]
        630 690 none true none := by
  constructor
  · exact (listEvents_overlap _ 630 690 true none _ 600 660 (by decide)
      (by decide) rfl rfl (by decide)).mpr (by decide)
  · intro hm
    exact absurd ((listEvents_overlap _ 630 690 true none _ 690 720
      (by decide) (by decide) rfl rfl (by decide)).mp hm) (by decide)

/-- C8: `create_event` time handling — when `payload.end` is absent the
created event's end defaults to start plus exactly 1 hour for a timed event
and start plus exactly 24 hours for an all-day event (fixed-offset
`setHours` arithmetic in milliseconds); and when both start and end are
given, `ensureEventTimes` accepts exactly when the end is strictly after the
start, throwing a validation error otherwise. -/
theorem ensureEventTimes_spec :
    (∀ s : Int, ensureEventTimes false s none =
      Except.ok (s, s + 3600000, false)) ∧
    (∀ s : Int, ensureEventTimes true s none =
      Except.ok (s, s + 86400000, true)) ∧
    (∀ (allDay : Bool) (s e : Int),
      ensureEventTimes allDay s (some e) = Except.ok (s, e, allDay) ↔
        s < e) := by
  refine ⟨?_, ?_, ?_⟩
  · intro s
    simp only [ensureEventTimes]
    rw [if_pos (by omega)]
    norm_num
  · intro s
    simp only [ensureEventTimes]
    rw [if_pos (by omega)]
    norm_num
  · intro allDay s e
    constructor
    · intro h
      by_cases hlt : s < e
      · exact hlt
      · simp [ensureEventTimes, if_neg hlt] at h
    · intro hlt
      simp [ensureEventTimes, if_pos hlt]

end MyOps
